import Mathlib

/-!
Shallow embedding of the KsanaLLM configuration, layer-initialization and
scheduling layer, translated from the C++ sources under src/.  Machine
integers that are logically non-negative (size_t, unsigned) are modelled
as Nat, signed ints holding small non-negative values as Int or Nat as
noted, and floating-point configuration scalars as Rat (all values that
occur are exactly representable).  Fallible C++ code returning Status is
modelled as returning a Status value; C++ exceptions are modelled with
Except.
-/

namespace KsanaLLM

/-- Return codes of the Status type, from ksana_llm/utils/ret_code.h as used
by the sources: success, invalid argument, segment fault, out of memory. -/
inductive RetCode
  | RET_SUCCESS
  | RET_INVALID_ARGUMENT
  | RET_SEGMENT_FAULT
  | RET_OUT_OF_MEMORY
deriving DecidableEq

/-- Status value combining a return code with a human-readable message. -/
structure Status where
  code : RetCode
  message : String
deriving DecidableEq

/-- The default-constructed success status, C++ Status(). -/
def Status.success : Status := ⟨RetCode.RET_SUCCESS, ""⟩

/-- Status::OK(): true exactly when the code is RET_SUCCESS. -/
def Status.OK (s : Status) : Bool := s.code == RetCode.RET_SUCCESS

/-- Weight data types relevant to GetModelDataType. -/
inductive DataType
  | TYPE_FP16
  | TYPE_BF16
deriving DecidableEq

/-- GetTypeSize: byte width of an element of the data type (half and
bfloat16 are both two bytes wide). -/
def GetTypeSize : DataType → Nat
  | DataType.TYPE_FP16 => 2
  | DataType.TYPE_BF16 => 2

/-- Memory device of an allocator config. -/
inductive MemoryDevice
  | MEMORY_HOST
  | MEMORY_DEVICE
deriving DecidableEq

/-- Per-tier allocator configuration (block geometry). -/
structure AllocatorConfig where
  block_token_num : Nat
  block_size : Nat
  device : MemoryDevice
  blocks_num : Nat
deriving DecidableEq

/-- Block manager configuration: host and device allocator configs plus
memory-ratio tunables and the prefix cache length. -/
structure BlockManagerConfig where
  host_allocator_config : AllocatorConfig
  device_allocator_config : AllocatorConfig
  reserved_device_memory_ratio : Rat
  lora_deivce_memory_ratio : Rat
  block_device_memory_ratio : Rat
  lora_host_memory_factor : Rat
  block_host_memory_factor : Rat
  prefix_cache_len : Int
deriving DecidableEq

/-- Batch scheduler configuration options. -/
structure BatchSchedulerConfig where
  schedule_strategy : Int
  waiting_timeout_in_ms : Nat
  max_waiting_queue_len : Nat
  max_step_tokens : Nat
  max_batch_size : Nat
  max_token_len : Nat
  swapout_block_threshold : Rat
  swapin_block_threshold : Rat
  launch_block_threshold : Rat
  swap_threadpool_size : Nat
  preempt_mode : Int
deriving DecidableEq

/-- Profiler configuration options. -/
structure ProfilerConfig where
  stat_interval_second : Nat
  stat_buffer_size : Nat
  report_threadpool_size : Nat
deriving DecidableEq

/-- Rope scaling factor configuration inside ModelConfig. -/
structure RopeScalingFactorConfig where
  type : String
  factor : Rat
deriving DecidableEq

/-- Model configuration filled by ParseModelConfig. -/
structure ModelConfig where
  name : String
  path : String
  weight_data_type : DataType
  tensor_para_size : Nat
  type : String
  head_num : Nat
  num_key_value_heads : Nat
  inter_size : Nat
  vocab_size : Nat
  num_layer : Nat
  hidden_units : Nat
  rope_theta : Rat
  layernorm_eps : Rat
  start_id : Int
  end_id : Int
  pad_id : Int
  max_position_embeddings : Nat
  rope_scaling_factor_config : RopeScalingFactorConfig
  size_per_head : Nat
  rotary_embedding : Nat
  block_token_num : Nat
  max_batch_size : Nat
  max_scheduler_token_num : Nat
  max_token_num : Nat
deriving DecidableEq

/-- Default-constructed ModelConfig (all scalar fields zero-initialized as
in the C++ value initialization used before the fields are assigned). -/
def ModelConfig.init : ModelConfig :=
  { name := "", path := "", weight_data_type := DataType.TYPE_FP16, tensor_para_size := 0,
    type := "", head_num := 0, num_key_value_heads := 0, inter_size := 0, vocab_size := 0,
    num_layer := 0, hidden_units := 0, rope_theta := 0, layernorm_eps := 0,
    start_id := 0, end_id := 0, pad_id := 0, max_position_embeddings := 0,
    rope_scaling_factor_config := ⟨"", 0⟩, size_per_head := 0, rotary_embedding := 0,
    block_token_num := 0, max_batch_size := 0, max_scheduler_token_num := 0,
    max_token_num := 0 }

/-- Rope scaling section of the model config.json, as read with
json::value defaults. -/
structure RopeScalingJson where
  type : Option String
  factor : Option Rat
deriving DecidableEq

/-- View of a model directory config.json: the keys that ParseModelConfig
reads.  Keys read with json::at are required (plain fields); keys read
with json::value are optional. -/
structure ConfigJson where
  torch_dtype : Option String
  model_type : String
  num_attention_heads : Nat
  num_key_value_heads : Option Nat
  intermediate_size : Nat
  vocab_size : Nat
  num_hidden_layers : Nat
  hidden_size : Nat
  rope_theta : Option Rat
  rms_norm_eps : Option Rat
  layer_norm_epsilon : Option Rat
  bos_token_id : Option Int
  eos_token_id : Option Int
  pad_token_id : Option Int
  max_position_embeddings : Option Nat
  rope_scaling : Option RopeScalingJson
deriving DecidableEq

/-- View of a model directory on disk: whether config.json exists, whether
it can be opened, its parsed contents, and the absolute directory path. -/
structure ModelDirFS where
  config_exists : Bool
  config_openable : Bool
  config_json : ConfigJson
  abs_path : String
deriving DecidableEq

/-- ASCII lower-casing: the std::transform loop applying std::tolower to
every character of the string. -/
def ToLower (s : String) : String := String.mk (s.data.map Char.toLower)

/-- GetModelDataType from environment.cpp: reads torch_dtype with default
"float16", lower-cases it, returns TYPE_FP16 for float16, TYPE_BF16 or
TYPE_FP16 for bfloat16 depending on the ENABLE_BFLOAT16 compile flag
(modelled as the Bool argument), and throws for anything else. -/
def GetModelDataType (config_json : ConfigJson) (enable_bfloat16 : Bool) : Except String DataType :=
  let data_type_raw_str := config_json.torch_dtype.getD "float16"
  let unified_data_type_raw_str := ToLower data_type_raw_str
  if unified_data_type_raw_str = "float16" then
    Except.ok DataType.TYPE_FP16
  else if unified_data_type_raw_str = "bfloat16" then
    (if enable_bfloat16 then Except.ok DataType.TYPE_BF16 else Except.ok DataType.TYPE_FP16)
  else
    Except.error "Not supported model data type."

/-- PrepareModeAttirbutes from environment.cpp: copies model attributes out
of config.json into the ModelConfig, with the json::value defaults of the
source. -/
def PrepareModeAttirbutes (config_json : ConfigJson) (model_config : ModelConfig) : ModelConfig :=
  let head_num := config_json.num_attention_heads
  let eps1 : Rat := config_json.rms_norm_eps.getD (1 / 1000000)
  let eps2 : Rat := config_json.layer_norm_epsilon.getD eps1
  let rope_cfg :=
    match config_json.rope_scaling with
    | none => model_config.rope_scaling_factor_config
    | some rs => ⟨rs.type.getD "default", rs.factor.getD 1⟩
  let size_per_head := config_json.hidden_size / head_num
  { model_config with
    type := config_json.model_type,
    head_num := head_num,
    num_key_value_heads := config_json.num_key_value_heads.getD head_num,
    inter_size := config_json.intermediate_size,
    vocab_size := config_json.vocab_size,
    num_layer := config_json.num_hidden_layers,
    hidden_units := config_json.hidden_size,
    rope_theta := config_json.rope_theta.getD 10000,
    layernorm_eps := eps2,
    start_id := config_json.bos_token_id.getD 1,
    end_id := config_json.eos_token_id.getD 2,
    pad_id := config_json.pad_token_id.getD 0,
    max_position_embeddings := config_json.max_position_embeddings.getD 2048,
    rope_scaling_factor_config := rope_cfg,
    size_per_head := size_per_head,
    rotary_embedding := size_per_head }

/-- Environment state touched by ParseConfig and its callees. -/
structure Environment where
  tensor_parallel_size : Nat
  pipeline_parallel_size : Nat
  enable_lora_adapter : Bool
  embed_tokens_use_cpu : Bool
  batch_scheduler_config : BatchSchedulerConfig
  block_manager_config : BlockManagerConfig
  profiler_config : ProfilerConfig
  model_configs : List (String × ModelConfig)
  warnings : List String
deriving DecidableEq

/-- ParseModelConfig from environment.cpp: fails with RET_INVALID_ARGUMENT
when config.json does not exist or cannot be opened; otherwise reads the
model data type (which may throw), prepares the model attributes, copies
the scheduler limits into the model config, and registers the model. -/
def ParseModelConfig (enable_bfloat16 : Bool) (env : Environment) (fs : ModelDirFS) :
    Except String (Environment × Status) :=
  if fs.config_exists = false then
    Except.ok (env, ⟨RetCode.RET_INVALID_ARGUMENT, "Model config file is not exists."⟩)
  else if fs.config_openable = false then
    Except.ok (env, ⟨RetCode.RET_INVALID_ARGUMENT, "Load model config file error."⟩)
  else
    match GetModelDataType fs.config_json enable_bfloat16 with
    | Except.error e => Except.error e
    | Except.ok dtype =>
      let mc0 := { ModelConfig.init with
                   path := fs.abs_path,
                   weight_data_type := dtype,
                   tensor_para_size := env.tensor_parallel_size }
      let mc1 := PrepareModeAttirbutes fs.config_json mc0
      let mc2 := { mc1 with
                   block_token_num := env.block_manager_config.device_allocator_config.block_token_num,
                   max_batch_size := env.batch_scheduler_config.max_batch_size,
                   max_scheduler_token_num := env.batch_scheduler_config.max_step_tokens,
                   max_token_num := env.batch_scheduler_config.max_token_len }
      Except.ok ({ env with model_configs := (mc2.name, mc2) :: env.model_configs },
                 Status.success)

/-- View of a successfully loaded yaml configuration file: for each key
that ParseConfig reads, some v when the key is present with value v, and
none when the key is absent (GetScalar then yields its default). -/
structure YamlConfig where
  tensor_para_size : Option Nat
  pipeline_para_size : Option Nat
  enable_lora_adapter : Option Bool
  embed_tokens_use_cpu : Option Bool
  schedule_strategy : Option Int
  waiting_timeout_in_ms : Option Nat
  max_waiting_queue_len : Option Nat
  max_step_tokens : Option Nat
  max_batch_size : Option Nat
  max_token_len : Option Nat
  swapout_block_threshold : Option Rat
  swapin_block_threshold : Option Rat
  launch_block_threshold : Option Rat
  swap_threadpool_size : Option Nat
  preempt_mode : Option Int
  block_token_num : Option Nat
  reserved_device_memory_ratio : Option Rat
  lora_deivce_memory_ratio : Option Rat
  block_device_memory_ratio : Option Rat
  lora_host_memory_factor : Option Rat
  block_host_memory_factor : Option Rat
  prefix_cache_len : Option Int
  stat_interval_second : Option Nat
  stat_buffer_size : Option Nat
  report_threadpool_size : Option Nat
  base_model_dir : Option String
deriving DecidableEq

/-- Batch scheduler section of ParseConfig: each option is read with the
default of the source. -/
def ReadBatchSchedulerConfig (y : YamlConfig) : BatchSchedulerConfig :=
  { schedule_strategy := y.schedule_strategy.getD 0,
    waiting_timeout_in_ms := y.waiting_timeout_in_ms.getD 600000,
    max_waiting_queue_len := y.max_waiting_queue_len.getD 256,
    max_step_tokens := y.max_step_tokens.getD 4096,
    max_batch_size := y.max_batch_size.getD 8,
    max_token_len := y.max_token_len.getD 1024,
    swapout_block_threshold := y.swapout_block_threshold.getD 1,
    swapin_block_threshold := y.swapin_block_threshold.getD 2,
    launch_block_threshold := y.launch_block_threshold.getD 2,
    swap_threadpool_size := y.swap_threadpool_size.getD 8,
    preempt_mode := y.preempt_mode.getD 0 }

/-- Warning text logged when prefix_cache_len is rounded down (the source
message also embeds the numeric values; the text is the fixed part). -/
def PrefixCacheRoundWarning : String :=
  "prefix_cache_len cannot round up block token num, retrieve the prefix cache num"

/-- Prefix-cache-length correction of ParseConfig: a positive value that is
not a multiple of block_token_num is rounded down to the largest multiple
of block_token_num not exceeding it (unsigned integer division as in the
source, where the int is converted to size_t), and a warning is logged.
Returns the stored value together with the warnings emitted. -/
def RoundPrefixCacheLen (prefix_cache_len : Int) (block_token_num : Nat) : Int × List String :=
  if 0 < prefix_cache_len ∧ prefix_cache_len.toNat % block_token_num ≠ 0 then
    (((prefix_cache_len.toNat / block_token_num) * block_token_num : Nat),
     [PrefixCacheRoundWarning])
  else
    (prefix_cache_len, [])

/-- Block manager section of ParseConfig: block geometry and memory ratio
options with the defaults of the source, plus the prefix-cache-length
correction.  Block sizes, blocks_num and the device tags are assigned
later by InitializeBlockManagerConfig; until then they hold the
value-initialized defaults. -/
def ReadBlockManagerConfig (y : YamlConfig) : BlockManagerConfig × List String :=
  let block_token_num := y.block_token_num.getD 16
  let rounded := RoundPrefixCacheLen (y.prefix_cache_len.getD 0) block_token_num
  ({ host_allocator_config :=
       { block_token_num := block_token_num, block_size := 0,
         device := MemoryDevice.MEMORY_HOST, blocks_num := 0 },
     device_allocator_config :=
       { block_token_num := block_token_num, block_size := 0,
         device := MemoryDevice.MEMORY_DEVICE, blocks_num := 0 },
     reserved_device_memory_ratio := y.reserved_device_memory_ratio.getD (1 / 20),
     lora_deivce_memory_ratio := y.lora_deivce_memory_ratio.getD 0,
     block_device_memory_ratio := y.block_device_memory_ratio.getD (-1),
     lora_host_memory_factor := y.lora_host_memory_factor.getD 10,
     block_host_memory_factor := y.block_host_memory_factor.getD 10,
     prefix_cache_len := rounded.1 },
   rounded.2)

/-- Profiler section of ParseConfig with the defaults of the source. -/
def ReadProfilerConfig (y : YamlConfig) : ProfilerConfig :=
  { stat_interval_second := y.stat_interval_second.getD 60,
    stat_buffer_size := y.stat_buffer_size.getD 1024,
    report_threadpool_size := y.report_threadpool_size.getD 4 }

/-- The pure yaml-reading part of ParseConfig: global settings, batch
scheduler config, block manager config (with prefix-cache rounding and its
warning) and profiler config. -/
def ApplyYamlSettings (env : Environment) (y : YamlConfig) : Environment :=
  let bm := ReadBlockManagerConfig y
  { env with
    tensor_parallel_size := y.tensor_para_size.getD 1,
    pipeline_parallel_size := y.pipeline_para_size.getD 1,
    enable_lora_adapter := y.enable_lora_adapter.getD false,
    embed_tokens_use_cpu := y.embed_tokens_use_cpu.getD false,
    batch_scheduler_config := ReadBatchSchedulerConfig y,
    block_manager_config := bm.1,
    profiler_config := ReadProfilerConfig y,
    warnings := env.warnings ++ bm.2 }

/-- InitializeBlockManagerConfig from environment.cpp: requires a
registered model (NLLM_CHECK, modelled as the error case), then assigns
both tiers a block size computed by the same formula
token_size * block_token_num * 2 * sizeof(fp16), tags the tiers and sets
the default block numbers. -/
def InitializeBlockManagerConfig (env : Environment) : Except String Environment :=
  match env.model_configs with
  | [] => Except.error "No model configed."
  | (_, model_config) :: _ =>
    let token_size := (model_config.num_layer / env.pipeline_parallel_size) *
                      (model_config.num_key_value_heads / env.tensor_parallel_size) *
                      model_config.size_per_head
    let block_token_num := env.block_manager_config.device_allocator_config.block_token_num
    let block_dtype_size := GetTypeSize DataType.TYPE_FP16
    let bm := env.block_manager_config
    Except.ok { env with block_manager_config :=
      { bm with
        host_allocator_config :=
          { bm.host_allocator_config with
            block_size := token_size * block_token_num * 2 * block_dtype_size,
            device := MemoryDevice.MEMORY_HOST,
            blocks_num := 512 * 10 },
        device_allocator_config :=
          { bm.device_allocator_config with
            block_size := token_size * block_token_num * 2 * block_dtype_size,
            device := MemoryDevice.MEMORY_DEVICE,
            blocks_num := 512 } } }

/-- Message of the status returned by CheckEnvironment when the host and
device tier block sizes differ (fixed part of the formatted message). -/
def BlockSizeMismatchMessage : String :=
  "block size of device and host is not equal."

/-- CheckEnvironment from environment.cpp: returns RET_INVALID_ARGUMENT
when the host and device tier block sizes differ, success otherwise. -/
def CheckEnvironment (env : Environment) : Status :=
  if env.block_manager_config.host_allocator_config.block_size ≠
     env.block_manager_config.device_allocator_config.block_size then
    ⟨RetCode.RET_INVALID_ARGUMENT, BlockSizeMismatchMessage⟩
  else
    Status.success

/-- ParseConfig from environment.cpp, for a successfully loaded yaml file:
reads the global settings (throwing unless both parallel sizes are
positive), the scheduler, block-manager and profiler sections, parses the
base model config (early-returning its failure status), then initializes
the block manager config and returns the result of CheckEnvironment. -/
def ParseConfig (enable_bfloat16 : Bool) (env0 : Environment) (y : YamlConfig)
    (fs : ModelDirFS) : Except String (Environment × Status) :=
  if 0 < y.pipeline_para_size.getD 1 ∧ 0 < y.tensor_para_size.getD 1 then
    let env2 := ApplyYamlSettings env0 y
    match ParseModelConfig enable_bfloat16 env2 fs with
    | Except.error e => Except.error e
    | Except.ok (env3, st) =>
      if st.OK then
        match InitializeBlockManagerConfig env3 with
        | Except.error e => Except.error e
        | Except.ok env4 => Except.ok (env4, CheckEnvironment env4)
      else
        Except.ok (env3, st)
  else
    Except.error "tensor_para_size and pipeline_para_size should > 0"

end KsanaLLM

namespace NumerousLLM

open KsanaLLM

/-- Model configuration of the numerous_llm variant (name and path are the
only fields its ParseOptions assigns). -/
structure NumModelConfig where
  name : String
  path : String
deriving DecidableEq

/-- Environment state of the numerous_llm variant touched by
ParseOptions. -/
structure NumEnvironment where
  model_configs : List NumModelConfig
deriving DecidableEq

/-- View of the ini model-config file named by the model_config flag:
whether it exists, whether INIReader reports a parse error, the
ft_instance_hyperparameter model_name value, and the flag path. -/
structure IniFile where
  file_exists : Bool
  parse_error : Bool
  model_name : String
  path : String
deriving DecidableEq

/-- ParseOptions from numerous_llm/utils/environment.cpp: returns
RET_SEGMENT_FAULT when the model config file does not exist, and again
RET_SEGMENT_FAULT when INIReader reports a parse error; otherwise records
the model and returns success. -/
def ParseOptions (env : NumEnvironment) (ini : IniFile) : NumEnvironment × Status :=
  if ini.file_exists = false then
    (env, ⟨RetCode.RET_SEGMENT_FAULT, "Model config file is not exists."⟩)
  else if ini.parse_error = true then
    (env, ⟨RetCode.RET_SEGMENT_FAULT, "Load model config file error."⟩)
  else
    ({ model_configs := env.model_configs ++ [⟨ini.model_name, ini.path⟩] }, Status.success)

/-- Byte width of the CUDA half type, sizeof(half). -/
def sizeof_half : Nat := 2

/-- Observable block-manager calls made during layer initialization. -/
inductive BlockManagerEvent
  | allocateContiguous (total_bytes : Nat)
deriving DecidableEq

/-- Parameter list of AttentionLayer::Init after the any_casts, in source
order.  rotary_dim is the int parameter after its cast to uint32_t, and
the int-typed values that are logically non-negative are modelled as
Nat. -/
structure AttentionLayerParams where
  layer_index : Int
  max_position_embeddings : Nat
  num_heads : Nat
  num_kv_heads : Nat
  head_size : Nat
  rotary_dim : Nat
  base : Rat
  is_neox : Bool
deriving DecidableEq

/-- Fields of AttentionLayer assigned by Init. -/
structure AttentionLayer where
  layer_index_ : Int
  max_position_embeddings_ : Nat
  num_heads_ : Nat
  num_kv_heads_ : Nat
  head_size_ : Nat
  block_size_ : Nat
deriving DecidableEq

/-- AttentionLayer::Init from attention_layer.cpp: computes
total_bytes = rotary_dim * max_position_embeddings * sizeof(half) in
32-bit unsigned arithmetic for the product of the first two factors (the
usual arithmetic conversions of uint32_t * int), requests exactly one
contiguous allocation of that many bytes for the rotary-embedding cos/sin
cache, reads block_size from the device allocator config, and then
unconditionally overwrites it with the constant 64.  Returns the
initialized layer together with the trace of block-manager calls. -/
def AttentionLayer_Init (p : AttentionLayerParams)
    (block_manager_config : BlockManagerConfig) :
    AttentionLayer × List BlockManagerEvent :=
  let total_bytes := ((p.rotary_dim * p.max_position_embeddings) % 2 ^ 32) * sizeof_half
  let layer0 : AttentionLayer :=
    { layer_index_ := p.layer_index,
      max_position_embeddings_ := p.max_position_embeddings,
      num_heads_ := p.num_heads,
      num_kv_heads_ := p.num_kv_heads,
      head_size_ := p.head_size,
      block_size_ := block_manager_config.device_allocator_config.block_size }
  let layer1 := { layer0 with block_size_ := 64 }
  (layer1, [BlockManagerEvent.allocateContiguous total_bytes])

end NumerousLLM

namespace SwapModel

/-- Modelled from the spec: the Block Manager SwapOut/SwapIn machinery of
sections 3 and 4.2 is not among the files under src/ (only its
configuration and callers are), so this component is modelled from the
spec's words.  A memory tier holds a free list of block ids and the byte
contents of every block; SwapOut copies every block content of a DEVICE
request into newly allocated HOST blocks, rewrites the BlockTable to the
host ids and frees the device blocks, failing when host capacity is
insufficient; SwapIn is the inverse. -/
inductive Tier
  | DEVICE
  | HOST
deriving DecidableEq

/-- Block identifier within a tier pool. -/
abbrev BlockId := Nat

/-- Byte contents of one cache block. -/
abbrev BlockContent := List Nat

/-- Modelled from the spec: one memory tier of the Block Manager, a free
list of block ids plus the contents stored in each block. -/
structure TierPool where
  free_blocks : List BlockId
  content : BlockId → BlockContent

/-- Modelled from the spec: Block Manager state, one pool per tier. -/
structure BMState where
  device : TierPool
  host : TierPool

/-- Modelled from the spec: a Request as far as swapping is concerned, its
BlockTable and the tier the table currently references. -/
structure Request where
  block_table : List BlockId
  tier : Tier

/-- Store the contents cs into the blocks ids of a tier content map,
pointwise (the i-th content into the i-th id); other blocks keep their
contents. -/
def writeBlocks (content : BlockId → BlockContent) (ids : List BlockId)
    (cs : List BlockContent) : BlockId → BlockContent :=
  fun i => (((ids.zip cs).lookup i).getD (content i))

/-- Modelled from the spec: SwapOut copies every block content from DEVICE
to newly allocated HOST blocks, rewrites the BlockTable to reference the
HOST blocks, and frees the DEVICE blocks; it fails (none) when the host
pool has too few free blocks, leaving the state unchanged. -/
def SwapOut (st : BMState) (req : Request) : Option (BMState × Request) :=
  if req.tier = Tier.DEVICE then
    let n := req.block_table.length
    if n ≤ st.host.free_blocks.length then
      let new_ids := st.host.free_blocks.take n
      let cs := req.block_table.map st.device.content
      some ({ device := { free_blocks := st.device.free_blocks ++ req.block_table,
                          content := st.device.content },
              host := { free_blocks := st.host.free_blocks.drop n,
                        content := writeBlocks st.host.content new_ids cs } },
            { block_table := new_ids, tier := Tier.HOST })
    else
      none
  else
    none

/-- Modelled from the spec: SwapIn is the inverse of SwapOut, copying the
HOST blocks of a swapped request into newly allocated DEVICE blocks,
rewriting the BlockTable and freeing the HOST blocks; it fails (none)
when the device pool has too few free blocks. -/
def SwapIn (st : BMState) (req : Request) : Option (BMState × Request) :=
  if req.tier = Tier.HOST then
    let n := req.block_table.length
    if n ≤ st.device.free_blocks.length then
      let new_ids := st.device.free_blocks.take n
      let cs := req.block_table.map st.host.content
      some ({ device := { free_blocks := st.device.free_blocks.drop n,
                          content := writeBlocks st.device.content new_ids cs },
              host := { free_blocks := st.host.free_blocks ++ req.block_table,
                        content := st.host.content } },
            { block_table := new_ids, tier := Tier.DEVICE })
    else
      none
  else
    none

/-- Byte contents of a request's cache, read through its BlockTable from
the tier it currently references. -/
def readTable (st : BMState) (req : Request) : List BlockContent :=
  match req.tier with
  | Tier.DEVICE => req.block_table.map st.device.content
  | Tier.HOST => req.block_table.map st.host.content

end SwapModel

namespace SchedModel

/-- Modelled from the spec: the Batch Scheduler admission step of section
4.4 is not among the files under src/ (only its configuration is), so the
admission loop is modelled from the spec's words: admit new WAITING
requests into the batch while device occupancy is below
launch_block_threshold and the max_batch_size and max_step_tokens budgets
are not exceeded. -/
structure SchedulerConfig where
  max_batch_size : Nat
  max_step_tokens : Nat
  launch_block_threshold : Rat

/-- Modelled from the spec: one request as the per-step scheduler sees it,
with the number of tokens it would process this step and the number of
device blocks it holds or needs. -/
structure StepRequest where
  req_id : Nat
  step_tokens : Nat
  blocks : Nat
deriving DecidableEq

/-- Total number of tokens processed across a batch in one step. -/
def batchTokens (batch : List StepRequest) : Nat :=
  (batch.map (fun r => r.step_tokens)).sum

/-- Modelled from the spec: the admission loop over the WAITING queue.  A
request is admitted while occupancy (used blocks against the launch
threshold times the pool size) is low enough and admitting it keeps the
batch within max_batch_size and max_step_tokens; the first request that
does not fit stops admission. -/
def AdmitWaiting (cfg : SchedulerConfig) (total_blocks : Nat)
    (batch : List StepRequest) (used_blocks : Nat) :
    List StepRequest → List StepRequest × Nat
  | [] => (batch, used_blocks)
  | r :: rest =>
    if (used_blocks : Rat) < cfg.launch_block_threshold * (total_blocks : Rat) ∧
       batch.length + 1 ≤ cfg.max_batch_size ∧
       batchTokens batch + r.step_tokens ≤ cfg.max_step_tokens then
      AdmitWaiting cfg total_blocks (batch ++ [r]) (used_blocks + r.blocks) rest
    else
      (batch, used_blocks)

/-- Modelled from the spec: one scheduler step's batch formation, starting
from the currently RUNNING requests and admitting WAITING requests; the
first component of the result is the emitted ForwardBatch. -/
def SchedulerStep (cfg : SchedulerConfig) (total_blocks : Nat)
    (running : List StepRequest) (used_blocks : Nat)
    (waiting : List StepRequest) : List StepRequest × Nat :=
  AdmitWaiting cfg total_blocks running used_blocks waiting

end SchedModel

namespace KsanaLLM

/-- A value-initialized Environment, the state before ParseConfig runs. -/
def Environment.init : Environment :=
  { tensor_parallel_size := 1, pipeline_parallel_size := 1,
    enable_lora_adapter := false, embed_tokens_use_cpu := false,
    batch_scheduler_config := ⟨0, 0, 0, 0, 0, 0, 0, 0, 0, 0, 0⟩,
    block_manager_config :=
      ⟨⟨0, 0, MemoryDevice.MEMORY_HOST, 0⟩, ⟨0, 0, MemoryDevice.MEMORY_DEVICE, 0⟩,
       0, 0, 0, 0, 0, 0⟩,
    profiler_config := ⟨0, 0, 0⟩, model_configs := [], warnings := [] }

/-- A yaml file in which every key ParseConfig reads is absent. -/
def YamlConfig.allAbsent : YamlConfig :=
  { tensor_para_size := none, pipeline_para_size := none, enable_lora_adapter := none,
    embed_tokens_use_cpu := none, schedule_strategy := none, waiting_timeout_in_ms := none,
    max_waiting_queue_len := none, max_step_tokens := none, max_batch_size := none,
    max_token_len := none, swapout_block_threshold := none, swapin_block_threshold := none,
    launch_block_threshold := none, swap_threadpool_size := none, preempt_mode := none,
    block_token_num := none, reserved_device_memory_ratio := none,
    lora_deivce_memory_ratio := none, block_device_memory_ratio := none,
    lora_host_memory_factor := none, block_host_memory_factor := none,
    prefix_cache_len := none, stat_interval_second := none, stat_buffer_size := none,
    report_threadpool_size := none, base_model_dir := none }

end KsanaLLM

/-- A llama-style config.json with only the required keys present. -/
def wConfigJson : KsanaLLM.ConfigJson :=
  ⟨none, "llama", 32, none, 11008, 32000, 32, 4096,
   none, none, none, none, none, none, none, none⟩

/-- A model directory whose config.json exists and opens. -/
def wFsOk : KsanaLLM.ModelDirFS := ⟨true, true, wConfigJson, "/models/llama"⟩

/-- A model directory whose config.json is missing. -/
def wFsMissing : KsanaLLM.ModelDirFS := ⟨false, true, wConfigJson, "/models/absent"⟩

/-- Yaml input of the C1 witness: prefix_cache_len 17 with block_token_num
16. -/
def c1Yaml : KsanaLLM.YamlConfig :=
  { KsanaLLM.YamlConfig.allAbsent with prefix_cache_len := some 17, block_token_num := some 16 }

/-- The C1 witness run of ParseConfig. -/
def c1Run : Except String (KsanaLLM.Environment × KsanaLLM.Status) :=
  KsanaLLM.ParseConfig false KsanaLLM.Environment.init c1Yaml wFsOk

/-- Environment produced by the C1 witness run. -/
def c1Env : KsanaLLM.Environment :=
  (c1Run.toOption.getD (KsanaLLM.Environment.init, KsanaLLM.Status.success)).1

/-- Status produced by the C1 witness run. -/
def c1St : KsanaLLM.Status :=
  (c1Run.toOption.getD (KsanaLLM.Environment.init, KsanaLLM.Status.success)).2

/-- The C3 witness run of ParseConfig on the all-defaults yaml. -/
def c3Run : Except String (KsanaLLM.Environment × KsanaLLM.Status) :=
  KsanaLLM.ParseConfig false KsanaLLM.Environment.init KsanaLLM.YamlConfig.allAbsent wFsOk

/-- Environment produced by the C3 witness run. -/
def c3Env : KsanaLLM.Environment :=
  (c3Run.toOption.getD (KsanaLLM.Environment.init, KsanaLLM.Status.success)).1

/-- Status produced by the C3 witness run. -/
def c3St : KsanaLLM.Status :=
  (c3Run.toOption.getD (KsanaLLM.Environment.init, KsanaLLM.Status.success)).2

/-- Block manager config for the C5 witness, device block size 1234. -/
def wBmcA : KsanaLLM.BlockManagerConfig :=
  ⟨⟨16, 0, KsanaLLM.MemoryDevice.MEMORY_HOST, 0⟩,
   ⟨16, 1234, KsanaLLM.MemoryDevice.MEMORY_DEVICE, 0⟩, 1 / 20, 0, -1, 10, 10, 0⟩

/-- Block manager config for the C5 witness, device block size 999. -/
def wBmcB : KsanaLLM.BlockManagerConfig :=
  ⟨⟨16, 0, KsanaLLM.MemoryDevice.MEMORY_HOST, 0⟩,
   ⟨16, 999, KsanaLLM.MemoryDevice.MEMORY_DEVICE, 0⟩, 1 / 20, 0, -1, 10, 10, 0⟩

/-- Attention layer parameters for the C5 witness. -/
def c5Params : NumerousLLM.AttentionLayerParams := ⟨0, 2048, 32, 32, 128, 128, 10000, true⟩

/-- Environment with mismatched tier block sizes for the C2 witness. -/
def wEnvNE : KsanaLLM.Environment :=
  { KsanaLLM.Environment.init with
    block_manager_config :=
      ⟨⟨16, 1024, KsanaLLM.MemoryDevice.MEMORY_HOST, 0⟩,
       ⟨16, 2048, KsanaLLM.MemoryDevice.MEMORY_DEVICE, 0⟩, 0, 0, 0, 0, 0, 0⟩ }

/-- Model config for the C8 witness. -/
def c8Mc : KsanaLLM.ModelConfig :=
  { KsanaLLM.ModelConfig.init with num_layer := 32, num_key_value_heads := 32, size_per_head := 128 }

/-- Environment for the C8 witness: one registered model, block token num
16 on the device tier. -/
def c8Env : KsanaLLM.Environment :=
  { KsanaLLM.Environment.init with
    model_configs := [("llama", c8Mc)],
    block_manager_config :=
      ⟨⟨16, 0, KsanaLLM.MemoryDevice.MEMORY_HOST, 0⟩,
       ⟨16, 0, KsanaLLM.MemoryDevice.MEMORY_DEVICE, 0⟩, 0, 0, 0, 0, 0, 0⟩ }

/-- Result environment of the C8 witness run. -/
def c8EnvOut : KsanaLLM.Environment :=
  ((KsanaLLM.InitializeBlockManagerConfig c8Env).toOption).getD KsanaLLM.Environment.init

/-- Config.json with torch_dtype Float16 (mixed case) for the C10
witness. -/
def c10J : KsanaLLM.ConfigJson := { wConfigJson with torch_dtype := some "Float16" }

/-- Config.json with an unsupported torch_dtype for the C10 witness. -/
def c10J2 : KsanaLLM.ConfigJson := { wConfigJson with torch_dtype := some "int8" }

/-- Ini file view of a missing numerous_llm model config. -/
def c4Ini : NumerousLLM.IniFile := ⟨false, false, "llama", "./config.ini"⟩

/-- Empty numerous_llm environment. -/
def c4NumEnv : NumerousLLM.NumEnvironment := ⟨[]⟩

/-- Device content map of the C6 witness: block i holds the byte i. -/
def c6f : SwapModel.BlockId → SwapModel.BlockContent := fun i => [i]

/-- Host content map of the C6 witness: all blocks empty. -/
def c6g : SwapModel.BlockId → SwapModel.BlockContent := fun _ => []

/-- Initial block manager state of the C6 witness. -/
def c6St0 : SwapModel.BMState := ⟨⟨[1, 2], c6f⟩, ⟨[10, 11], c6g⟩⟩

/-- Request of the C6 witness, holding device blocks 3 and 4. -/
def c6Req0 : SwapModel.Request := ⟨[3, 4], SwapModel.Tier.DEVICE⟩

/-- State and request after the C6 witness SwapOut. -/
def c6Out1 : SwapModel.BMState × SwapModel.Request :=
  (SwapModel.SwapOut c6St0 c6Req0).getD (c6St0, c6Req0)

/-- State after the C6 witness SwapOut. -/
def c6St1 : SwapModel.BMState := c6Out1.1

/-- Request after the C6 witness SwapOut. -/
def c6Req1 : SwapModel.Request := c6Out1.2

/-- State and request after the C6 witness SwapIn. -/
def c6Out2 : SwapModel.BMState × SwapModel.Request :=
  (SwapModel.SwapIn c6St1 c6Req1).getD (c6St1, c6Req1)

/-- State after the C6 witness SwapIn. -/
def c6St2 : SwapModel.BMState := c6Out2.1

/-- Request after the C6 witness SwapIn. -/
def c6Req2 : SwapModel.Request := c6Out2.2

/-- Scheduler config of the C7 witness: batch budget 2, token budget 10. -/
def c7Cfg : SchedModel.SchedulerConfig := ⟨2, 10, 2⟩

/-- Waiting queue of the C7 witness: three requests of four tokens each. -/
def c7Waiting : List SchedModel.StepRequest := [⟨1, 4, 1⟩, ⟨2, 4, 1⟩, ⟨3, 4, 1⟩]

/-- C9: after AttentionLayer::Init returns, the block_size_ field equals
the constant 64 for every parameter list and every device allocator
configuration: the configured block_size is read and then unconditionally
overwritten by the constant. -/
theorem attention_init_block_size_always_64 (p : NumerousLLM.AttentionLayerParams)
    (cfg : KsanaLLM.BlockManagerConfig) :
    ((NumerousLLM.AttentionLayer_Init p cfg).1).block_size_ = 64 := rfl

/-- C5: attention-layer initialization requests exactly one contiguous
allocation, of rotary_dim * max_position_embeddings * sizeof(half) bytes
(whenever that product fits 32-bit unsigned arithmetic), and the
allocation trace does not depend on the block manager configuration or
any per-request KV-block state. -/
theorem attention_init_single_contiguous_allocation
    (p : NumerousLLM.AttentionLayerParams)
    (cfg cfg' : KsanaLLM.BlockManagerConfig)
    (h : p.rotary_dim * p.max_position_embeddings < 2 ^ 32) :
    (NumerousLLM.AttentionLayer_Init p cfg).2 =
      [NumerousLLM.BlockManagerEvent.allocateContiguous
        (p.rotary_dim * p.max_position_embeddings * NumerousLLM.sizeof_half)] ∧
    (NumerousLLM.AttentionLayer_Init p cfg).2 = (NumerousLLM.AttentionLayer_Init p cfg').2 := by
  constructor
  · simp [NumerousLLM.AttentionLayer_Init]
    exact Or.inl (by simpa using h)
  · rfl

/-- Witness for C5 at rotary_dim 128 and max_position_embeddings 2048. -/
theorem attention_init_single_contiguous_allocation_witness :
    (NumerousLLM.AttentionLayer_Init c5Params wBmcA).2 =
      [NumerousLLM.BlockManagerEvent.allocateContiguous (128 * 2048 * 2)] ∧
    (NumerousLLM.AttentionLayer_Init c5Params wBmcA).2 =
      (NumerousLLM.AttentionLayer_Init c5Params wBmcB).2 :=
  attention_init_single_contiguous_allocation c5Params wBmcA wBmcB (by decide)

/-- C2: CheckEnvironment returns a non-OK status with code
RET_INVALID_ARGUMENT exactly when the host-tier and device-tier block
sizes differ, and the success status when they are equal. -/
theorem check_environment_block_size_mismatch (env : KsanaLLM.Environment) :
    (env.block_manager_config.host_allocator_config.block_size ≠
       env.block_manager_config.device_allocator_config.block_size →
       (KsanaLLM.CheckEnvironment env).code = KsanaLLM.RetCode.RET_INVALID_ARGUMENT ∧
       (KsanaLLM.CheckEnvironment env).OK = false) ∧
    (env.block_manager_config.host_allocator_config.block_size =
       env.block_manager_config.device_allocator_config.block_size →
       KsanaLLM.CheckEnvironment env = KsanaLLM.Status.success) := by
  constructor
  · intro h
    simp [KsanaLLM.CheckEnvironment, h, KsanaLLM.Status.OK]
  · intro h
    simp [KsanaLLM.CheckEnvironment, h]

/-- Witness for C2: a mismatched environment is rejected with
RET_INVALID_ARGUMENT, an equal-size environment passes. -/
theorem check_environment_block_size_mismatch_witness :
    ((KsanaLLM.CheckEnvironment wEnvNE).code = KsanaLLM.RetCode.RET_INVALID_ARGUMENT ∧
     (KsanaLLM.CheckEnvironment wEnvNE).OK = false) ∧
    KsanaLLM.CheckEnvironment KsanaLLM.Environment.init = KsanaLLM.Status.success :=
  ⟨(check_environment_block_size_mismatch wEnvNE).1 (by decide),
   (check_environment_block_size_mismatch KsanaLLM.Environment.init).2 (by decide)⟩

/-- C10: GetModelDataType defaults torch_dtype to float16 when the key is
absent, matches case-insensitively, returns TYPE_FP16 for float16 and
for bfloat16 when bfloat16 support is not compiled in, and throws for
every other torch_dtype string. -/
theorem get_model_data_type_cases (j : KsanaLLM.ConfigJson) (ebf : Bool) :
    (j.torch_dtype = none →
       KsanaLLM.GetModelDataType j ebf = Except.ok KsanaLLM.DataType.TYPE_FP16) ∧
    (KsanaLLM.ToLower (j.torch_dtype.getD "float16") = "float16" →
       KsanaLLM.GetModelDataType j ebf = Except.ok KsanaLLM.DataType.TYPE_FP16) ∧
    (KsanaLLM.ToLower (j.torch_dtype.getD "float16") = "bfloat16" → ebf = false →
       KsanaLLM.GetModelDataType j ebf = Except.ok KsanaLLM.DataType.TYPE_FP16) ∧
    (KsanaLLM.ToLower (j.torch_dtype.getD "float16") ≠ "float16" →
     KsanaLLM.ToLower (j.torch_dtype.getD "float16") ≠ "bfloat16" →
       KsanaLLM.GetModelDataType j ebf = Except.error "Not supported model data type.") := by
  refine ⟨?_, ?_, ?_, ?_⟩
  · intro h
    simp only [KsanaLLM.GetModelDataType, h]
    rfl
  · intro h
    simp [KsanaLLM.GetModelDataType, h]
  · intro h hbf
    subst hbf
    simp [KsanaLLM.GetModelDataType, h]
  · intro h1 h2
    simp [KsanaLLM.GetModelDataType, h1, h2]

/-- Witness for C10 at the mixed-case value Float16 and the unsupported
value int8. -/
theorem get_model_data_type_cases_witness :
    KsanaLLM.GetModelDataType c10J false = Except.ok KsanaLLM.DataType.TYPE_FP16 ∧
    KsanaLLM.GetModelDataType c10J2 false = Except.error "Not supported model data type." :=
  ⟨(get_model_data_type_cases c10J false).2.1 (by decide),
   (get_model_data_type_cases c10J2 false).2.2.2 (by decide) (by decide)⟩

/-- C4 counterexample: at a missing model config file, the numerous_llm
ParseOptions entry point returns RET_SEGMENT_FAULT, not the
RET_INVALID_ARGUMENT code the claim asserts for both entry points. -/
theorem numerous_parse_options_not_invalid_argument :
    (NumerousLLM.ParseOptions c4NumEnv c4Ini).2.code = KsanaLLM.RetCode.RET_SEGMENT_FAULT ∧
    (NumerousLLM.ParseOptions c4NumEnv c4Ini).2.code ≠ KsanaLLM.RetCode.RET_INVALID_ARGUMENT := by
  exact ⟨rfl, by decide⟩

/-- C4 amended: a missing or unopenable model config makes both entry
points fail with a non-OK status that aborts startup, with code
RET_INVALID_ARGUMENT in the ksana_llm ParseModelConfig variant and code
RET_SEGMENT_FAULT in the numerous_llm ParseOptions variant. -/
theorem config_missing_file_status_codes :
    (∀ (ebf : Bool) (env : KsanaLLM.Environment) (fs : KsanaLLM.ModelDirFS),
       fs.config_exists = false ∨ fs.config_openable = false →
       ∃ st : KsanaLLM.Status,
         KsanaLLM.ParseModelConfig ebf env fs = Except.ok (env, st) ∧
         st.code = KsanaLLM.RetCode.RET_INVALID_ARGUMENT ∧ st.OK = false) ∧
    (∀ (env : NumerousLLM.NumEnvironment) (ini : NumerousLLM.IniFile),
       ini.file_exists = false ∨ ini.parse_error = true →
       (NumerousLLM.ParseOptions env ini).2.code = KsanaLLM.RetCode.RET_SEGMENT_FAULT ∧
       (NumerousLLM.ParseOptions env ini).2.OK = false) := by
  constructor
  · intro ebf env fs h
    cases hce : fs.config_exists with
    | false =>
      refine ⟨⟨KsanaLLM.RetCode.RET_INVALID_ARGUMENT, "Model config file is not exists."⟩,
              ?_, rfl, rfl⟩
      simp [KsanaLLM.ParseModelConfig, hce]
    | true =>
      have hop : fs.config_openable = false := by
        rcases h with h | h
        · rw [hce] at h; exact absurd h (by simp)
        · exact h
      refine ⟨⟨KsanaLLM.RetCode.RET_INVALID_ARGUMENT, "Load model config file error."⟩,
              ?_, rfl, rfl⟩
      simp [KsanaLLM.ParseModelConfig, hce, hop]
  · intro env ini h
    cases hfe : ini.file_exists with
    | false =>
      constructor
      · simp [NumerousLLM.ParseOptions, hfe]
      · simp [NumerousLLM.ParseOptions, hfe, KsanaLLM.Status.OK]
    | true =>
      have hpe : ini.parse_error = true := by
        rcases h with h | h
        · rw [hfe] at h; exact absurd h (by simp)
        · exact h
      constructor
      · simp [NumerousLLM.ParseOptions, hfe, hpe]
      · simp [NumerousLLM.ParseOptions, hfe, hpe, KsanaLLM.Status.OK]

/-- ParseModelConfig leaves every Environment field except model_configs
unchanged, fails only with the two file-access statuses, and registers a
model on success. -/
theorem KsanaLLM.ParseModelConfig_ok_inv (ebf : Bool) (env : KsanaLLM.Environment)
    (fs : KsanaLLM.ModelDirFS) (env' : KsanaLLM.Environment) (st : KsanaLLM.Status)
    (h : KsanaLLM.ParseModelConfig ebf env fs = Except.ok (env', st)) :
    env'.block_manager_config = env.block_manager_config ∧
    env'.batch_scheduler_config = env.batch_scheduler_config ∧
    env'.warnings = env.warnings ∧
    env'.tensor_parallel_size = env.tensor_parallel_size ∧
    env'.pipeline_parallel_size = env.pipeline_parallel_size ∧
    (st = KsanaLLM.Status.success → env'.model_configs ≠ []) ∧
    (st = KsanaLLM.Status.success ∨
     st = ⟨KsanaLLM.RetCode.RET_INVALID_ARGUMENT, "Model config file is not exists."⟩ ∨
     st = ⟨KsanaLLM.RetCode.RET_INVALID_ARGUMENT, "Load model config file error."⟩) := by
  unfold KsanaLLM.ParseModelConfig at h
  split at h
  · simp only [Except.ok.injEq, Prod.mk.injEq] at h
    obtain ⟨he, hst⟩ := h
    subst he
    subst hst
    exact ⟨rfl, rfl, rfl, rfl, rfl, fun hc => absurd hc (by decide), Or.inr (Or.inl rfl)⟩
  · split at h
    · simp only [Except.ok.injEq, Prod.mk.injEq] at h
      obtain ⟨he, hst⟩ := h
      subst he
      subst hst
      exact ⟨rfl, rfl, rfl, rfl, rfl, fun hc => absurd hc (by decide), Or.inr (Or.inr rfl)⟩
    · split at h
      · exact absurd h (by simp)
      · simp only [Except.ok.injEq, Prod.mk.injEq] at h
        obtain ⟨he, hst⟩ := h
        subst hst
        subst he
        exact ⟨rfl, rfl, rfl, rfl, rfl, fun _ => (by simp), Or.inl rfl⟩

/-- ParseModelConfig succeeds and registers a model when config.json
exists, opens and holds a supported torch_dtype. -/
theorem KsanaLLM.ParseModelConfig_success (ebf : Bool) (env : KsanaLLM.Environment)
    (fs : KsanaLLM.ModelDirFS)
    (hex : fs.config_exists = true) (hop : fs.config_openable = true)
    (dt : KsanaLLM.DataType)
    (hd : KsanaLLM.GetModelDataType fs.config_json ebf = Except.ok dt) :
    ∃ entry, KsanaLLM.ParseModelConfig ebf env fs =
      Except.ok ({ env with model_configs := entry :: env.model_configs },
                 KsanaLLM.Status.success) := by
  unfold KsanaLLM.ParseModelConfig
  rw [hex, hop, hd]
  exact ⟨_, rfl⟩

/-- InitializeBlockManagerConfig only rewrites block sizes, tier tags and
block numbers: the prefix cache length, token numbers, scheduler config
and warnings survive, and the block sizes it assigns are equal. -/
theorem KsanaLLM.InitializeBlockManagerConfig_inv (env env' : KsanaLLM.Environment)
    (h : KsanaLLM.InitializeBlockManagerConfig env = Except.ok env') :
    env'.block_manager_config.prefix_cache_len =
      env.block_manager_config.prefix_cache_len ∧
    env'.block_manager_config.host_allocator_config.block_token_num =
      env.block_manager_config.host_allocator_config.block_token_num ∧
    env'.block_manager_config.device_allocator_config.block_token_num =
      env.block_manager_config.device_allocator_config.block_token_num ∧
    env'.batch_scheduler_config = env.batch_scheduler_config ∧
    env'.warnings = env.warnings ∧
    env'.block_manager_config.host_allocator_config.block_size =
      env'.block_manager_config.device_allocator_config.block_size := by
  unfold KsanaLLM.InitializeBlockManagerConfig at h
  split at h
  · exact absurd h (by simp)
  · simp only [Except.ok.injEq] at h
    subst h
    exact ⟨rfl, rfl, rfl, rfl, rfl, rfl⟩

/-- Every successful run of ParseConfig carries the yaml-derived scheduler
config, block token numbers, prefix cache length and warnings into the
resulting environment, and its status is the success status or one of the
two model-config file-access failures. -/
theorem KsanaLLM.ParseConfig_ok_inv (ebf : Bool) (env0 : KsanaLLM.Environment)
    (y : KsanaLLM.YamlConfig) (fs : KsanaLLM.ModelDirFS)
    (env : KsanaLLM.Environment) (st : KsanaLLM.Status)
    (h : KsanaLLM.ParseConfig ebf env0 y fs = Except.ok (env, st)) :
    env.batch_scheduler_config = KsanaLLM.ReadBatchSchedulerConfig y ∧
    env.block_manager_config.prefix_cache_len =
      (KsanaLLM.ReadBlockManagerConfig y).1.prefix_cache_len ∧
    env.block_manager_config.host_allocator_config.block_token_num =
      y.block_token_num.getD 16 ∧
    env.block_manager_config.device_allocator_config.block_token_num =
      y.block_token_num.getD 16 ∧
    env.warnings = env0.warnings ++ (KsanaLLM.ReadBlockManagerConfig y).2 ∧
    (st = KsanaLLM.Status.success ∨
     st = ⟨KsanaLLM.RetCode.RET_INVALID_ARGUMENT, "Model config file is not exists."⟩ ∨
     st = ⟨KsanaLLM.RetCode.RET_INVALID_ARGUMENT, "Load model config file error."⟩) ∧
    (∀ dt : KsanaLLM.DataType, fs.config_exists = true → fs.config_openable = true →
       KsanaLLM.GetModelDataType fs.config_json ebf = Except.ok dt →
       st = KsanaLLM.Status.success) := by
  simp only [KsanaLLM.ParseConfig] at h
  split at h
  · split at h
    · simp at h
    · rename_i env3 st0 hpm
      have hinv := KsanaLLM.ParseModelConfig_ok_inv ebf _ fs env3 st0 hpm
      split at h
      · rename_i hok
        split at h
        · simp at h
        · rename_i env4 hini
          simp only [Except.ok.injEq, Prod.mk.injEq] at h
          obtain ⟨henv, hst⟩ := h
          subst henv
          have hinv2 := KsanaLLM.InitializeBlockManagerConfig_inv env3 env4 hini
          have hchk : KsanaLLM.CheckEnvironment env4 = KsanaLLM.Status.success := by
            simp [KsanaLLM.CheckEnvironment, hinv2.2.2.2.2.2]
          have hstsucc : st = KsanaLLM.Status.success := by
            rw [← hst]
            exact hchk
          refine ⟨?_, ?_, ?_, ?_, ?_, Or.inl hstsucc, fun _ _ _ _ => hstsucc⟩
          · exact hinv2.2.2.2.1.trans hinv.2.1
          · rw [hinv2.1]
            exact congrArg (fun b => b.prefix_cache_len) hinv.1
          · rw [hinv2.2.1]
            exact congrArg (fun b => b.host_allocator_config.block_token_num) hinv.1
          · rw [hinv2.2.2.1]
            exact congrArg (fun b => b.device_allocator_config.block_token_num) hinv.1
          · exact hinv2.2.2.2.2.1.trans hinv.2.2.1
      · rename_i hok
        simp only [Except.ok.injEq, Prod.mk.injEq] at h
        obtain ⟨henv, hst⟩ := h
        subst henv
        subst hst
        refine ⟨hinv.2.1, ?_, ?_, ?_, hinv.2.2.1, ?_, ?_⟩
        · exact congrArg (fun b => b.prefix_cache_len) hinv.1
        · exact congrArg (fun b => b.host_allocator_config.block_token_num) hinv.1
        · exact congrArg (fun b => b.device_allocator_config.block_token_num) hinv.1
        · rcases hinv.2.2.2.2.2.2 with hs | hs | hs
          · exact absurd (by rw [hs]; rfl : st0.OK = true) hok
          · exact Or.inr (Or.inl hs)
          · exact Or.inr (Or.inr hs)
        · intro dt hex hop hd
          obtain ⟨entry, hpm2⟩ :=
            KsanaLLM.ParseModelConfig_success ebf (KsanaLLM.ApplyYamlSettings env0 y) fs
              hex hop dt hd
          rw [hpm2] at hpm
          simp only [Except.ok.injEq, Prod.mk.injEq] at hpm
          exact absurd (by rw [← hpm.2]; rfl : st0.OK = true) hok
  · simp at h

/-- Witness for the amended C4 at a concrete missing file for each entry
point. -/
theorem config_missing_file_status_codes_witness :
    (∃ st : KsanaLLM.Status,
       KsanaLLM.ParseModelConfig false KsanaLLM.Environment.init wFsMissing =
         Except.ok (KsanaLLM.Environment.init, st) ∧
       st.code = KsanaLLM.RetCode.RET_INVALID_ARGUMENT ∧ st.OK = false) ∧
    ((NumerousLLM.ParseOptions c4NumEnv c4Ini).2.code = KsanaLLM.RetCode.RET_SEGMENT_FAULT ∧
     (NumerousLLM.ParseOptions c4NumEnv c4Ini).2.OK = false) :=
  ⟨config_missing_file_status_codes.1 false KsanaLLM.Environment.init wFsMissing (Or.inl rfl),
   config_missing_file_status_codes.2 c4NumEnv c4Ini (Or.inl rfl)⟩

/-- C1: for every configuration in which prefix_cache_len is positive and
not a multiple of block_token_num, ParseConfig stores the value rounded
down to the largest multiple of block_token_num not exceeding it, logs a
warning, and (with a well-formed model directory, so that no unrelated
failure intervenes) still returns the success status rather than an
error. -/
theorem parse_config_rounds_prefix_cache_len
    (ebf : Bool) (env0 : KsanaLLM.Environment) (y : KsanaLLM.YamlConfig)
    (fs : KsanaLLM.ModelDirFS) (p : Int)
    (hp : y.prefix_cache_len = some p) (hpos : 0 < p)
    (hbtn : 0 < y.block_token_num.getD 16)
    (hnd : p.toNat % y.block_token_num.getD 16 ≠ 0)
    (hex : fs.config_exists = true) (hop : fs.config_openable = true)
    (dt : KsanaLLM.DataType)
    (hdt : KsanaLLM.GetModelDataType fs.config_json ebf = Except.ok dt)
    (env : KsanaLLM.Environment) (st : KsanaLLM.Status)
    (hrun : KsanaLLM.ParseConfig ebf env0 y fs = Except.ok (env, st)) :
    env.block_manager_config.prefix_cache_len =
      ((p.toNat / y.block_token_num.getD 16) * y.block_token_num.getD 16 : Nat) ∧
    KsanaLLM.PrefixCacheRoundWarning ∈ env.warnings ∧
    st = KsanaLLM.Status.success := by
  have hinv := KsanaLLM.ParseConfig_ok_inv ebf env0 y fs env st hrun
  have hround : KsanaLLM.RoundPrefixCacheLen (y.prefix_cache_len.getD 0)
      (y.block_token_num.getD 16) =
      ((((p.toNat / y.block_token_num.getD 16) * y.block_token_num.getD 16 : Nat) : Int),
       [KsanaLLM.PrefixCacheRoundWarning]) := by
    rw [hp]
    simp only [Option.getD_some]
    rw [KsanaLLM.RoundPrefixCacheLen, if_pos ⟨hpos, hnd⟩]
  refine ⟨?_, ?_, hinv.2.2.2.2.2.2 dt hex hop hdt⟩
  · rw [hinv.2.1]
    show (KsanaLLM.ReadBlockManagerConfig y).1.prefix_cache_len = _
    simp only [KsanaLLM.ReadBlockManagerConfig, hround]
  · rw [hinv.2.2.2.2.1]
    have hw : (KsanaLLM.ReadBlockManagerConfig y).2 = [KsanaLLM.PrefixCacheRoundWarning] := by
      simp only [KsanaLLM.ReadBlockManagerConfig, hround]
    rw [hw]
    simp

/-- Witness for C1: prefix_cache_len 17 with block_token_num 16 is stored
as 16, with the warning logged and a success status. -/
theorem parse_config_rounds_prefix_cache_len_witness :
    c1Env.block_manager_config.prefix_cache_len = (16 : Int) ∧
    KsanaLLM.PrefixCacheRoundWarning ∈ c1Env.warnings ∧
    c1St = KsanaLLM.Status.success :=
  parse_config_rounds_prefix_cache_len false KsanaLLM.Environment.init c1Yaml wFsOk 17
    rfl (by decide) (by decide) (by decide) rfl rfl KsanaLLM.DataType.TYPE_FP16 rfl
    c1Env c1St rfl

/-- C3: for every configuration file that omits the batch-scheduler and
block-geometry options, every successful run of ParseConfig assigns
exactly the documented defaults, including block_token_num 16 for both
the host and device allocator configs. -/
theorem parse_config_scheduler_defaults
    (ebf : Bool) (env0 : KsanaLLM.Environment) (y : KsanaLLM.YamlConfig)
    (fs : KsanaLLM.ModelDirFS)
    (h1 : y.schedule_strategy = none) (h2 : y.waiting_timeout_in_ms = none)
    (h3 : y.max_waiting_queue_len = none) (h4 : y.max_step_tokens = none)
    (h5 : y.max_batch_size = none) (h6 : y.max_token_len = none)
    (h7 : y.swapout_block_threshold = none) (h8 : y.swapin_block_threshold = none)
    (h9 : y.launch_block_threshold = none) (h10 : y.swap_threadpool_size = none)
    (h11 : y.preempt_mode = none) (h12 : y.block_token_num = none)
    (env : KsanaLLM.Environment) (st : KsanaLLM.Status)
    (hrun : KsanaLLM.ParseConfig ebf env0 y fs = Except.ok (env, st)) :
    env.batch_scheduler_config =
      { schedule_strategy := 0, waiting_timeout_in_ms := 600000,
        max_waiting_queue_len := 256, max_step_tokens := 4096, max_batch_size := 8,
        max_token_len := 1024, swapout_block_threshold := 1, swapin_block_threshold := 2,
        launch_block_threshold := 2, swap_threadpool_size := 8, preempt_mode := 0 } ∧
    env.block_manager_config.host_allocator_config.block_token_num = 16 ∧
    env.block_manager_config.device_allocator_config.block_token_num = 16 := by
  have hinv := KsanaLLM.ParseConfig_ok_inv ebf env0 y fs env st hrun
  refine ⟨?_, ?_, ?_⟩
  · rw [hinv.1]
    simp [KsanaLLM.ReadBatchSchedulerConfig, h1, h2, h3, h4, h5, h6, h7, h8, h9, h10, h11]
  · rw [hinv.2.2.1, h12]
    rfl
  · rw [hinv.2.2.2.1, h12]
    rfl

/-- Witness for C3: the all-defaults yaml run yields the documented
defaults. -/
theorem parse_config_scheduler_defaults_witness :
    c3Env.batch_scheduler_config =
      { schedule_strategy := 0, waiting_timeout_in_ms := 600000,
        max_waiting_queue_len := 256, max_step_tokens := 4096, max_batch_size := 8,
        max_token_len := 1024, swapout_block_threshold := 1, swapin_block_threshold := 2,
        launch_block_threshold := 2, swap_threadpool_size := 8, preempt_mode := 0 } ∧
    c3Env.block_manager_config.host_allocator_config.block_token_num = 16 ∧
    c3Env.block_manager_config.device_allocator_config.block_token_num = 16 :=
  parse_config_scheduler_defaults false KsanaLLM.Environment.init
    KsanaLLM.YamlConfig.allAbsent wFsOk rfl rfl rfl rfl rfl rfl rfl rfl rfl rfl rfl rfl
    c3Env c3St rfl

/-- C8: InitializeBlockManagerConfig assigns the host-tier and device-tier
block sizes from the same formula, token_size * block_token_num * 2 *
sizeof(fp16), so they are always equal, CheckEnvironment accepts every
environment it produces, and consequently no successful ParseConfig run
ever carries the block-size-mismatch status (that error branch is
unreachable from ParseConfig). -/
theorem initialize_block_manager_equal_block_sizes
    (env env' : KsanaLLM.Environment)
    (h : KsanaLLM.InitializeBlockManagerConfig env = Except.ok env') :
    (∀ (name : String) (mc : KsanaLLM.ModelConfig)
       (rest : List (String × KsanaLLM.ModelConfig)),
       env.model_configs = (name, mc) :: rest →
       env'.block_manager_config.host_allocator_config.block_size =
         (mc.num_layer / env.pipeline_parallel_size) *
           (mc.num_key_value_heads / env.tensor_parallel_size) * mc.size_per_head *
           env.block_manager_config.device_allocator_config.block_token_num * 2 *
           KsanaLLM.GetTypeSize KsanaLLM.DataType.TYPE_FP16) ∧
    env'.block_manager_config.host_allocator_config.block_size =
      env'.block_manager_config.device_allocator_config.block_size ∧
    KsanaLLM.CheckEnvironment env' = KsanaLLM.Status.success ∧
    (∀ (ebf : Bool) (env0 : KsanaLLM.Environment) (y : KsanaLLM.YamlConfig)
       (fs : KsanaLLM.ModelDirFS) (envp : KsanaLLM.Environment) (stp : KsanaLLM.Status),
       KsanaLLM.ParseConfig ebf env0 y fs = Except.ok (envp, stp) →
       stp.message ≠ KsanaLLM.BlockSizeMismatchMessage) := by
  have hinv := KsanaLLM.InitializeBlockManagerConfig_inv env env' h
  refine ⟨?_, hinv.2.2.2.2.2, ?_, ?_⟩
  · intro name mc rest hmc
    unfold KsanaLLM.InitializeBlockManagerConfig at h
    rw [hmc] at h
    simp only [Except.ok.injEq] at h
    subst h
    rfl
  · simp [KsanaLLM.CheckEnvironment, hinv.2.2.2.2.2]
  · intro ebf env0 y fs envp stp hrun
    have hst := (KsanaLLM.ParseConfig_ok_inv ebf env0 y fs envp stp hrun).2.2.2.2.2.1
    rcases hst with hs | hs | hs
    · rw [hs]
      exact (by decide)
    · rw [hs]
      exact (by decide)
    · rw [hs]
      exact (by decide)

/-- Witness for C8 at a one-model environment: block size 8388608 on both
tiers and an accepting CheckEnvironment. -/
theorem initialize_block_manager_equal_block_sizes_witness :
    (c8EnvOut.block_manager_config.host_allocator_config.block_size =
       (32 / 1) * (32 / 1) * 128 * 16 * 2 * KsanaLLM.GetTypeSize KsanaLLM.DataType.TYPE_FP16) ∧
    (c8EnvOut.block_manager_config.host_allocator_config.block_size =
       c8EnvOut.block_manager_config.device_allocator_config.block_size) ∧
    KsanaLLM.CheckEnvironment c8EnvOut = KsanaLLM.Status.success :=
  ⟨(initialize_block_manager_equal_block_sizes c8Env c8EnvOut rfl).1 "llama" c8Mc [] rfl,
   (initialize_block_manager_equal_block_sizes c8Env c8EnvOut rfl).2.1,
   (initialize_block_manager_equal_block_sizes c8Env c8EnvOut rfl).2.2.1⟩

/-- Storing contents into distinct block ids and reading the same ids back
returns exactly the stored contents. -/
theorem SwapModel.map_writeBlocks (c : SwapModel.BlockId → SwapModel.BlockContent) :
    ∀ (ids : List SwapModel.BlockId) (cs : List SwapModel.BlockContent),
      ids.Nodup → cs.length = ids.length →
      ids.map (SwapModel.writeBlocks c ids cs) = cs := by
  intro ids
  induction ids with
  | nil =>
    intro cs _ hlen
    have hnil : cs = [] := List.eq_nil_of_length_eq_zero hlen
    simp [hnil]
  | cons i is ih =>
    intro cs hnd hlen
    cases cs with
    | nil => simp at hlen
    | cons c0 cs0 =>
      have hni : i ∉ is := (List.nodup_cons.mp hnd).1
      have hnd' : is.Nodup := (List.nodup_cons.mp hnd).2
      have hlen' : cs0.length = is.length := by simpa using hlen
      simp only [List.map_cons]
      have hhead : SwapModel.writeBlocks c (i :: is) (c0 :: cs0) i = c0 := by
        simp [SwapModel.writeBlocks, List.lookup]
      have htail : is.map (SwapModel.writeBlocks c (i :: is) (c0 :: cs0)) =
          is.map (SwapModel.writeBlocks c is cs0) := by
        refine List.map_congr_left ?_
        intro j hj
        have hji : j ≠ i := fun hcontra => hni (hcontra ▸ hj)
        have hb : (j == i) = false := beq_eq_false_iff_ne.mpr hji
        show (((i :: is).zip (c0 :: cs0)).lookup j).getD (c j) =
          ((is.zip cs0).lookup j).getD (c j)
        rw [List.zip_cons_cons]
        simp [List.lookup, hb]
      rw [hhead, htail, ih cs0 hnd' hlen']

/-- C6: when SwapOut succeeds and the matching SwapIn succeeds, the
request's cache block contents and its BlockTable length after SwapIn are
identical to their values before SwapOut, byte for byte, and the request
is back on the device tier (whereas the BlockIds in the table need not be
the same). -/
theorem swap_out_swap_in_roundtrip
    (st : SwapModel.BMState) (req : SwapModel.Request)
    (hhost : st.host.free_blocks.Nodup)
    (hdev : (st.device.free_blocks ++ req.block_table).Nodup)
    (st1 : SwapModel.BMState) (req1 : SwapModel.Request)
    (h1 : SwapModel.SwapOut st req = some (st1, req1))
    (st2 : SwapModel.BMState) (req2 : SwapModel.Request)
    (h2 : SwapModel.SwapIn st1 req1 = some (st2, req2)) :
    req2.block_table.length = req.block_table.length ∧
    SwapModel.readTable st2 req2 = SwapModel.readTable st req ∧
    req2.tier = SwapModel.Tier.DEVICE := by
  simp only [SwapModel.SwapOut] at h1
  split at h1
  · split at h1
    · simp only [Option.some.injEq, Prod.mk.injEq] at h1
      obtain ⟨hst1, hreq1⟩ := h1
      rename_i hot hcap
      subst hst1
      subst hreq1
      simp only [SwapModel.SwapIn] at h2
      split at h2
      · split at h2
        · simp only [Option.some.injEq, Prod.mk.injEq] at h2
          obtain ⟨hst2, hreq2⟩ := h2
          subst hst2
          subst hreq2
          have h1len : (st.host.free_blocks.take req.block_table.length).length =
              req.block_table.length := by
            rw [List.length_take, Nat.min_eq_left hcap]
          have hnidnd : (st.host.free_blocks.take req.block_table.length).Nodup :=
            List.Nodup.sublist (List.take_sublist _ _) hhost
          have hcs_len : (req.block_table.map st.device.content).length =
              (st.host.free_blocks.take req.block_table.length).length := by
            rw [List.length_map, h1len]
          have hA : (st.host.free_blocks.take req.block_table.length).map
              (SwapModel.writeBlocks st.host.content
                (st.host.free_blocks.take req.block_table.length)
                (req.block_table.map st.device.content)) =
              req.block_table.map st.device.content :=
            SwapModel.map_writeBlocks _ _ _ hnidnd hcs_len
          have hntot : req.block_table.length ≤
              (st.device.free_blocks ++ req.block_table).length := by
            rw [List.length_append]
            omega
          have hdevlen : ((st.device.free_blocks ++ req.block_table).take
              req.block_table.length).length = req.block_table.length := by
            rw [List.length_take, Nat.min_eq_left hntot]
          have hdevnd : ((st.device.free_blocks ++ req.block_table).take
              req.block_table.length).Nodup :=
            List.Nodup.sublist (List.take_sublist _ _) hdev
          refine ⟨?_, ?_, rfl⟩
          · simp only [h1len, hdevlen]
          · simp only [SwapModel.readTable, hot, h1len]
            rw [hA]
            have hcs_len2 : (req.block_table.map st.device.content).length =
                ((st.device.free_blocks ++ req.block_table).take
                  req.block_table.length).length := by
              rw [List.length_map, hdevlen]
            exact SwapModel.map_writeBlocks st.device.content _ _ hdevnd hcs_len2
        · simp at h2
      · rename_i hcontra
        exact absurd trivial hcontra
    · simp at h1
  · simp at h1

/-- Witness for C6: a request holding blocks 3 and 4 with contents [3] and
[4] is swapped out to host blocks 10 and 11 and back to device blocks 1
and 2; contents and table length are preserved. -/
theorem swap_out_swap_in_roundtrip_witness :
    c6Req2.block_table.length = c6Req0.block_table.length ∧
    SwapModel.readTable c6St2 c6Req2 = SwapModel.readTable c6St0 c6Req0 ∧
    c6Req2.tier = SwapModel.Tier.DEVICE :=
  swap_out_swap_in_roundtrip c6St0 c6Req0 (by decide) (by decide)
    c6St1 c6Req1 rfl c6St2 c6Req2 rfl

/-- The admission loop never grows the batch beyond max_batch_size
requests or max_step_tokens total tokens, starting from any batch within
both budgets. -/
theorem SchedModel.AdmitWaiting_bounds (cfg : SchedModel.SchedulerConfig)
    (total_blocks : Nat) :
    ∀ (waiting batch : List SchedModel.StepRequest) (used_blocks : Nat),
      batch.length ≤ cfg.max_batch_size →
      SchedModel.batchTokens batch ≤ cfg.max_step_tokens →
      (SchedModel.AdmitWaiting cfg total_blocks batch used_blocks waiting).1.length ≤
        cfg.max_batch_size ∧
      SchedModel.batchTokens
        (SchedModel.AdmitWaiting cfg total_blocks batch used_blocks waiting).1 ≤
        cfg.max_step_tokens := by
  intro waiting
  induction waiting with
  | nil =>
    intro batch used_blocks hb ht
    exact ⟨hb, ht⟩
  | cons r rest ih =>
    intro batch used_blocks hb ht
    rw [SchedModel.AdmitWaiting]
    split
    · rename_i hcond
      refine ih (batch ++ [r]) (used_blocks + r.blocks) ?_ ?_
      · rw [List.length_append]
        simpa using hcond.2.1
      · have happ : SchedModel.batchTokens (batch ++ [r]) =
            SchedModel.batchTokens batch + r.step_tokens := by
          simp [SchedModel.batchTokens]
        rw [happ]
        exact hcond.2.2
    · exact ⟨hb, ht⟩

/-- C7: in every scheduler step, the emitted ForwardBatch contains at most
max_batch_size RUNNING requests, and the total number of tokens processed
across the batch is at most max_step_tokens, provided the running set the
step starts from already respects both budgets. -/
theorem scheduler_step_budget_bounds (cfg : SchedModel.SchedulerConfig)
    (total_blocks : Nat) (running : List SchedModel.StepRequest)
    (used_blocks : Nat) (waiting : List SchedModel.StepRequest)
    (hb : running.length ≤ cfg.max_batch_size)
    (ht : SchedModel.batchTokens running ≤ cfg.max_step_tokens) :
    (SchedModel.SchedulerStep cfg total_blocks running used_blocks waiting).1.length ≤
      cfg.max_batch_size ∧
    SchedModel.batchTokens
      (SchedModel.SchedulerStep cfg total_blocks running used_blocks waiting).1 ≤
      cfg.max_step_tokens :=
  SchedModel.AdmitWaiting_bounds cfg total_blocks waiting running used_blocks hb ht

/-- Witness for C7: with batch budget 2 and token budget 10, a step over
three waiting four-token requests emits a batch within both budgets. -/
theorem scheduler_step_budget_bounds_witness :
    (SchedModel.SchedulerStep c7Cfg 4 [] 0 c7Waiting).1.length ≤ c7Cfg.max_batch_size ∧
    SchedModel.batchTokens (SchedModel.SchedulerStep c7Cfg 4 [] 0 c7Waiting).1 ≤
      c7Cfg.max_step_tokens :=
  scheduler_step_budget_bounds c7Cfg 4 [] 0 c7Waiting (by decide) (by decide)
